import Mathlib

/-!
Shallow embedding of the streak/points/badge/daily-content bookkeeping
subsystem of the gamified vocabulary-learning backend
(src/server/routes.ts, src/server/storage.ts, src/shared/schema.ts).

Calendar dates (YYYY-MM-DD strings in the source, compared only for
equality) are modelled as natural-number day indices; the day before
day d is d - 1.  Database tables are modelled as lists of rows; a
drizzle select-where is a filter or find over the list, an
update-where-set is a map over the list, an insert is an append.
-/

/-- Row of the daily_streaks table (src/shared/schema.ts).  Fields keep
the column defaults: currentStreak 0, longestStreak 0, lastCompletedDate
null, streakSaversUsed 0, totalDaysCompleted 0. -/
structure StreakRecord where
  currentStreak : Nat
  longestStreak : Nat
  lastCompletedDate : Option Nat
  streakSaversUsed : Nat
  totalDaysCompleted : Nat
deriving Repr, DecidableEq

/-- Freshly inserted daily_streaks row, all columns at their defaults
(routes.ts lazily inserts a row carrying only the userId). -/
def defaultStreak : StreakRecord :=
  { currentStreak := 0
    longestStreak := 0
    lastCompletedDate := none
    streakSaversUsed := 0
    totalDaysCompleted := 0 }

/-- Response data of POST /api/daily-mix/complete: which branch was
taken and what was passed to storage.addPoints (none when the handler
returned early without awarding XP). -/
structure DailyMixResult where
  alreadyCompleted : Bool
  newStreak : Nat
  bonusXP : Nat
  totalXP : Nat
  awardedXP : Option Nat
deriving Repr, DecidableEq

/-- JS Math.round((score / totalQuestions) * 30) from the daily-mix
handler, computed exactly over rationals: round-half-up of
(score * 30) / totalQuestions.  (totalQuestions = 0 is outside the
modelled domain; the source would produce NaN there.) -/
def dailyMixBaseXP (score totalQuestions : Nat) : Nat :=
  (score * 30 * 2 + totalQuestions) / (2 * totalQuestions)

/-- POST /api/daily-mix/complete handler (routes.ts lines 792-863) as a
pure function of the streak row (none = no row yet, lazily created at
defaults), the current day, and the request body.  Returns the streak
row as left in the database together with the response data. -/
def dailyMixComplete (streakOpt : Option StreakRecord) (today : Nat)
    (score totalQuestions : Nat) : StreakRecord × DailyMixResult :=
  let streak := streakOpt.getD defaultStreak
  if streak.lastCompletedDate = some today then
    (streak,
      { alreadyCompleted := true
        newStreak := streak.currentStreak
        bonusXP := 0
        totalXP := 0
        awardedXP := none })
  else
    let yesterday := today - 1
    let newStreak :=
      if streak.lastCompletedDate = some yesterday then streak.currentStreak + 1 else 1
    let newLongest := max streak.longestStreak newStreak
    let streak1 :=
      { streak with
        currentStreak := newStreak
        longestStreak := newLongest
        lastCompletedDate := some today
        totalDaysCompleted := streak.totalDaysCompleted + 1 }
    let bonusXP :=
      if newStreak = 3 then 50
      else if newStreak = 7 then 100
      else if newStreak = 30 then 500
      else 0
    let totalXP := dailyMixBaseXP score totalQuestions + bonusXP
    (streak1,
      { alreadyCompleted := false
        newStreak := newStreak
        bonusXP := bonusXP
        totalXP := totalXP
        awardedXP := some totalXP })

/-- Row of the users table restricted to the columns the modelled
handlers touch. -/
structure UserRow where
  id : Nat
  points : Int
deriving Repr, DecidableEq

/-- Outcome of POST /api/daily-mix/save-streak: the 400 response for
too few points, the 400 response for a missing streak row, or success. -/
inductive SaveStreakOutcome
  | notEnoughXP
  | noStreak
  | success
deriving Repr, DecidableEq

/-- Fixed streak-saver cost (const xpCost = 50 in the handler). -/
def xpCost : Int := 50

/-- POST /api/daily-mix/save-streak handler (routes.ts lines 865-903)
as a pure function of the session user row, the streak row, and the
current day.  Returns the outcome together with the user row and streak
row as left in the database. -/
def saveStreak (user : UserRow) (streakOpt : Option StreakRecord) (today : Nat) :
    SaveStreakOutcome × UserRow × Option StreakRecord :=
  if user.points < xpCost then
    (.notEnoughXP, user, streakOpt)
  else
    match streakOpt with
    | none => (.noStreak, user, none)
    | some streak =>
      let yesterday := today - 1
      let streak1 :=
        { streak with
          lastCompletedDate := some yesterday
          streakSaversUsed := streak.streakSaversUsed + 1 }
      let user1 := { user with points := user.points - xpCost }
      (.success, user1, some streak1)

/-- Invariant claimed for every streak record: the longest streak is at
least the current streak. -/
def streakInv (s : StreakRecord) : Prop :=
  s.currentStreak ≤ s.longestStreak

instance (s : StreakRecord) : Decidable (streakInv s) := by
  unfold streakInv; infer_instance

/-- Row of the badges catalog table, restricted to the columns the
points engine reads. -/
structure BadgeRow where
  id : Nat
  name : String
deriving Repr, DecidableEq

/-- Row of the user_badges award table. -/
structure UserBadgeRow where
  userId : Nat
  badgeId : Nat
deriving Repr, DecidableEq

/-- State touched by DatabaseStorage.addPoints and
checkAndAwardPointsBadges: the users, badges and user_badges tables. -/
structure Store where
  users : List UserRow
  badges : List BadgeRow
  userBadges : List UserBadgeRow
deriving Repr, DecidableEq

/-- DatabaseStorage.getUser: select from users where id, first row. -/
def getUser (s : Store) (userId : Nat) : Option UserRow :=
  s.users.find? (fun u => u.id = userId)

/-- DatabaseStorage.getUserBadges: select from user_badges where
userId. -/
def getUserBadges (s : Store) (userId : Nat) : List UserBadgeRow :=
  s.userBadges.filter (fun ub => ub.userId = userId)

/-- Hard-coded threshold list of checkAndAwardPointsBadges
(storage.ts lines 306-310). -/
def pointBadges : List (Int × String) :=
  [(300, "Shield"), (500, "Medium Shield"), (1000, "Bronze Shield")]

/-- DatabaseStorage.awardBadge: insert into user_badges. -/
def awardBadge (s : Store) (userId badgeId : Nat) : Store :=
  { s with userBadges := s.userBadges ++ [{ userId := userId, badgeId := badgeId }] }

/-- One iteration of the for-loop of checkAndAwardPointsBadges: award
the badge named in the threshold entry when the user meets the
threshold, the badge exists in the catalog, and its id is not in the
set of badge ids the user held when the loop started. -/
def awardStep (s0 : Store) (userId : Nat) (userPoints : Int) (heldIds : List Nat)
    (s : Store) (pb : Int × String) : Store :=
  if pb.1 ≤ userPoints then
    match s0.badges.find? (fun b => b.name = pb.2) with
    | some badge =>
      if heldIds.contains badge.id then s else awardBadge s userId badge.id
    | none => s
  else s

/-- DatabaseStorage.checkAndAwardPointsBadges (storage.ts lines
297-320): re-read the user; if absent, return with no change; else
collect the set of already-held badge ids once, then loop over the
three point thresholds awarding any newly met badge not in that set. -/
def checkAndAwardPointsBadges (s : Store) (userId : Nat) : Store :=
  match getUser s userId with
  | none => s
  | some user =>
    let heldIds := (getUserBadges s userId).map (fun ub => ub.badgeId)
    pointBadges.foldl (awardStep s userId user.points heldIds) s

/-- Errors an async storage call could surface to the route handler.
DatabaseStorage.addPoints itself never raises notFound: when the
update-where matches no user row, drizzle returning() yields an empty
list and the method resolves normally with an undefined user. -/
inductive StorageError
  | notFound
deriving Repr, DecidableEq

/-- DatabaseStorage.addPoints (storage.ts lines 284-295): update the
user row in place adding the amount, destructure the first returned
row (none when the user does not exist), then run the badge check.
The reason string is used for logging only and is not modelled. -/
def addPoints (s : Store) (userId : Nat) (amount : Int) :
    Except StorageError (Option UserRow) × Store :=
  let users1 := s.users.map (fun u =>
    if u.id = userId then { u with points := u.points + amount } else u)
  let returned := users1.filter (fun u => u.id = userId)
  let s1 : Store := { s with users := users1 }
  let s2 := checkAndAwardPointsBadges s1 userId
  (.ok returned.head?, s2)

/-- Sequence of addPoints calls, each a (userId, amount) pair. -/
def addPointsMany (s : Store) (calls : List (Nat × Int)) : Store :=
  calls.foldl (fun st c => (addPoints st c.1 c.2).2) s

/-- Number of user_badges rows for one (userId, badgeId) pair. -/
def ubCount (l : List UserBadgeRow) (u b : Nat) : Nat :=
  (l.filter (fun ub => ub.userId = u ∧ ub.badgeId = b)).length

/-- Uniqueness claimed of the user_badges table: at most one row per
(userId, badgeId) pair. -/
def uniqueUserBadges (l : List UserBadgeRow) : Prop :=
  ∀ u b : Nat, ubCount l u b ≤ 1

/-- Award emitted by one iteration of the badge loop, as data: a row
exactly when the threshold is met, the badge name resolves in the
catalog, and the badge id is not among the held ids; none otherwise. -/
def awardOf (s0 : Store) (userId : Nat) (userPoints : Int) (heldIds : List Nat)
    (pb : Int × String) : Option UserBadgeRow :=
  if pb.1 ≤ userPoints then
    match s0.badges.find? (fun b => b.name = pb.2) with
    | some badge =>
      if heldIds.contains badge.id then none
      else some { userId := userId, badgeId := badge.id }
    | none => none
  else none

/-- Database invariant from the badges table primary key: catalog ids
are pairwise distinct. -/
def distinctBadgeIds (l : List BadgeRow) : Prop :=
  (l.map (fun b => b.id)).Nodup

/-- Row of the users table restricted to the columns the learned-terms
ledger touches. -/
structure LUserRow where
  id : Nat
  wordsLearned : Nat
deriving Repr, DecidableEq

/-- Row of the user_learned_terms table. -/
structure UserLearnedTerm where
  userId : Nat
  termId : Nat
deriving Repr, DecidableEq

/-- State touched by DatabaseStorage.markTermAsLearned: the users and
user_learned_terms tables. -/
structure LStore where
  users : List LUserRow
  learned : List UserLearnedTerm
deriving Repr, DecidableEq

/-- DatabaseStorage.getUserLearnedTermIds: select termId from
user_learned_terms where userId. -/
def getUserLearnedTermIds (s : LStore) (userId : Nat) : List Nat :=
  (s.learned.filter (fun r => r.userId = userId)).map (fun r => r.termId)

/-- DatabaseStorage.markTermAsLearned (storage.ts lines 234-251):
select rows for the (userId, termId) pair; if any exists, return the
first with no change; else insert the row, recount the user rows of
the ledger, and write the count back into the user row as
wordsLearned. -/
def markTermAsLearned (s : LStore) (userId termId : Nat) : UserLearnedTerm × LStore :=
  let existing := s.learned.filter (fun r => r.userId = userId ∧ r.termId = termId)
  match existing.head? with
  | some r => (r, s)
  | none =>
    let row : UserLearnedTerm := { userId := userId, termId := termId }
    let learned1 := s.learned ++ [row]
    let s1 : LStore := { s with learned := learned1 }
    let count := (getUserLearnedTermIds s1 userId).length
    let users1 := s.users.map (fun u =>
      if u.id = userId then { u with wordsLearned := count } else u)
    (row, { users := users1, learned := learned1 })

/-- Number of ledger rows for one (userId, termId) pair. -/
def learnedCount (l : List UserLearnedTerm) (u t : Nat) : Nat :=
  (l.filter (fun r => r.userId = u ∧ r.termId = t)).length

/-- Row of the ai_duels table restricted to the columns the complete
handler touches.  The wrong-answer entries are opaque to the handler
except for the length of the array. -/
structure AiDuel where
  id : Nat
  userId : Nat
  difficulty : String
  userScore : Int
  aiScore : Int
  wrongAnswers : List String
  xpEarned : Int
  completed : Bool
deriving Repr, DecidableEq

/-- State touched by POST /api/duel/complete: the ai_duels table plus
the points/badge store. -/
structure DuelStore where
  duels : List AiDuel
  store : Store
deriving Repr, DecidableEq

/-- Request body of POST /api/duel/complete. -/
structure DuelCompleteBody where
  duelId : Nat
  userScore : Int
  aiScore : Int
  wrongAnswers : List String
  xpEarned : Int
  won : Bool
deriving Repr, DecidableEq

/-- POST /api/duel/complete handler (routes.ts lines 701-745):
unconditionally overwrite the duel row matching duelId with the
submitted scores, wrong answers, xpEarned and completed = true, then
add xpEarned points to the session user, then scan the full duel
history for the win-count badge names returned in the response. -/
def duelComplete (st : DuelStore) (sessionUserId : Nat) (body : DuelCompleteBody) :
    List String × DuelStore :=
  let duels1 := st.duels.map (fun d =>
    if d.id = body.duelId then
      { d with
        userScore := body.userScore
        aiScore := body.aiScore
        wrongAnswers := body.wrongAnswers
        xpEarned := body.xpEarned
        completed := true }
    else d)
  let store1 := (addPoints st.store sessionUserId body.xpEarned).2
  let winBadges :=
    if body.won then
      let allDuels := duels1.filter (fun d => d.userId = sessionUserId)
      let wins := (allDuels.filter (fun d => d.aiScore < d.userScore)).length
      let hardWins := (allDuels.filter
        (fun d => d.difficulty = "hard" ∧ d.aiScore < d.userScore)).length
      (if wins = 5 then ["AI Slayer"] else [])
        ++ (if wins = 10 then ["AI Master"] else [])
        ++ (if wins = 25 then ["AI Legend"] else [])
        ++ (if hardWins = 5 then ["Hard Mode Hero"] else [])
    else []
  let newBadges := winBadges
    ++ (if body.wrongAnswers.length = 0 ∧ 0 < body.userScore then ["Perfect Score"] else [])
  (newBadges, { duels := duels1, store := store1 })

/-- Status column of the async_battles table. -/
inductive BattleStatus
  | pending
  | active
  | completed
deriving Repr, DecidableEq

/-- Row of the async_battles table (src/unnamed/part_010 lines
382-395).  challengerScore is NOT NULL with default 0; opponentScore,
opponentAnswers and winnerId are nullable. -/
structure AsyncBattle where
  id : Nat
  challengerId : Nat
  opponentId : Option Nat
  challengerScore : Int
  opponentScore : Option Int
  challengerAnswers : List String
  opponentAnswers : Option (List String)
  status : BattleStatus
  winnerId : Option Nat
deriving Repr, DecidableEq

/-- State touched by POST /api/battle/submit/:battleId: the
async_battles table plus the points/badge store. -/
structure BattleStore where
  battles : List AsyncBattle
  store : Store
deriving Repr, DecidableEq

/-- Outcome of POST /api/battle/submit/:battleId. -/
inductive SubmitOutcome
  | battleNotFound
  | ok
deriving Repr, DecidableEq

/-- Drizzle update-where on the async_battles table: apply the set
clause to every row matching the battle id. -/
def updateBattle (bs : List AsyncBattle) (battleId : Nat)
    (f : AsyncBattle → AsyncBattle) : List AsyncBattle :=
  bs.map (fun b => if b.id = battleId then f b else b)

/-- POST /api/battle/submit/:battleId handler (routes.ts lines
1011-1071).  When the submitter is the challenger, only the challenger
answers and score are written.  When the submitter is anyone else, the
opponent answers and score are written and the returned row is checked
for completion; since challengerScore is NOT NULL in the schema, the
null check on it in the source is always true, so the branch runs
whenever the opponent score has just been set.  The winner (strictly
higher score, tie gives null) is stored, the status set to completed,
and 50 points awarded to the winner through storage.addPoints. -/
def battleSubmit (st : BattleStore) (sessionUserId battleId : Nat)
    (answers : List String) (score : Int) : SubmitOutcome × BattleStore :=
  match st.battles.find? (fun b => b.id = battleId) with
  | none => (.battleNotFound, st)
  | some battle =>
    if battle.challengerId = sessionUserId then
      let battles1 := updateBattle st.battles battleId (fun b =>
        { b with challengerAnswers := answers, challengerScore := score })
      (.ok, { st with battles := battles1 })
    else
      let battles1 := updateBattle st.battles battleId (fun b =>
        { b with opponentAnswers := some answers, opponentScore := some score })
      let updated :=
        { battle with opponentAnswers := some answers, opponentScore := some score }
      match updated.opponentScore with
      | none => (.ok, { st with battles := battles1 })
      | some oppScore =>
        let winnerId : Option Nat :=
          if oppScore < updated.challengerScore then some updated.challengerId
          else if updated.challengerScore < oppScore then updated.opponentId
          else none
        let battles2 := updateBattle battles1 battleId (fun b =>
          { b with status := .completed, winnerId := winnerId })
        let store1 :=
          match winnerId with
          | some w => (addPoints st.store w 50).2
          | none => st.store
        (.ok, { battles := battles2, store := store1 })

/-- Row of the terms table.  The example column is named exampleText
here because example is a reserved word in Lean. -/
structure TermRow where
  id : Nat
  term : String
  definition : String
  exampleText : String
  department : String
deriving Repr, DecidableEq

/-- One quiz question of a daily-content record. -/
structure QuizQuestion where
  question : String
  options : List String
  correctAnswer : String
  funFact : String
deriving Repr, DecidableEq

/-- Row of the daily_content table. -/
structure DailyContentRow where
  department : String
  date : String
  termId : Nat
  quizData : List QuizQuestion
deriving Repr, DecidableEq

/-- Parsed shape of a successful generator response for daily content:
one term plus its quiz. -/
structure GenTermData where
  term : String
  definition : String
  exampleText : String
deriving Repr, DecidableEq

/-- Parsed generator output for GET /api/ai/daily-content. -/
structure GenData where
  term : GenTermData
  quiz : List QuizQuestion
deriving Repr, DecidableEq

/-- Failure of the external generation step: the LLM call failed or
its output did not parse as JSON.  Both throw inside the try block of
the handler before any database write. -/
inductive GenerationError
  | generatorFailed
  | unparseableOutput
deriving Repr, DecidableEq

/-- State touched by GET /api/ai/daily-content: the terms and
daily_content tables plus the learned-terms ledger. -/
structure ContentStore where
  terms : List TermRow
  dailyContent : List DailyContentRow
  ledger : LStore
deriving Repr, DecidableEq

/-- Response body of GET /api/ai/daily-content: the term (absent when
the cached termId no longer resolves) and the quiz. -/
structure DailyContentResponse where
  termId : Option Nat
  quiz : List QuizQuestion
deriving Repr, DecidableEq

/-- DatabaseStorage.getDailyContent: select from daily_content where
department and date, first row. -/
def getDailyContent (s : ContentStore) (department date : String) :
    Option DailyContentRow :=
  s.dailyContent.find? (fun c => c.department = department ∧ c.date = date)

/-- GET /api/ai/daily-content handler (routes.ts lines 104-186) as a
pure function.  The combined outcome of the generator call and the
JSON parse of its output is passed in as genResult; freshTermId is the
serial id the database assigns to the inserted term.  On a cache hit
the existing record is returned and its term marked learned; otherwise
on generator success a term row, a daily_content row and a learned
mark are written; on generator failure the error propagates to the
catch block with no write having happened. -/
def dailyContentHandler (s : ContentStore) (userId : Nat) (department today : String)
    (genResult : Except GenerationError GenData) (freshTermId : Nat) :
    Except GenerationError DailyContentResponse × ContentStore :=
  match getDailyContent s department today with
  | some existing =>
    let allTerms := s.terms.filter (fun t => t.department = department)
    match allTerms.find? (fun t => t.id = existing.termId) with
    | some term =>
      let ledger1 := (markTermAsLearned s.ledger userId term.id).2
      (.ok { termId := some term.id, quiz := existing.quizData },
        { s with ledger := ledger1 })
    | none =>
      (.ok { termId := none, quiz := existing.quizData }, s)
  | none =>
    match genResult with
    | .error e => (.error e, s)
    | .ok data =>
      let newTerm : TermRow :=
        { id := freshTermId
          term := data.term.term
          definition := data.term.definition
          exampleText := data.term.exampleText
          department := department }
      let terms1 := s.terms ++ [newTerm]
      let content1 := s.dailyContent ++
        [{ department := department, date := today, termId := newTerm.id,
           quizData := data.quiz }]
      let ledger1 := (markTermAsLearned s.ledger userId newTerm.id).2
      (.ok { termId := some newTerm.id, quiz := data.quiz },
        { terms := terms1, dailyContent := content1, ledger := ledger1 })

/-- Concrete async-battle scenario: user 1 challenged user 2, the
battle is active, neither side has submitted yet; challengerScore sits
at its schema default 0. -/
def battleOpponentFirstStart : BattleStore :=
  { battles := [{ id := 1, challengerId := 1, opponentId := some 2,
                  challengerScore := 0, opponentScore := none,
                  challengerAnswers := [], opponentAnswers := none,
                  status := .active, winnerId := none }],
    store := { users := [{ id := 1, points := 0 }, { id := 2, points := 0 }],
               badges := [], userBadges := [] } }

/-- State after the opponent (user 2) submits score 5 first. -/
def battleAfterOpponentSubmit : BattleStore :=
  (battleSubmit battleOpponentFirstStart 2 1 [] 5).2

/-- State after the challenger (user 1) then submits score 8. -/
def battleAfterBothSubmit : BattleStore :=
  (battleSubmit battleAfterOpponentSubmit 1 1 [] 8).2

/-- Concrete AI-duel scenario: duel 1 of user 7 already stored as
completed with userScore 3, and user 7 holding 0 points. -/
def duelScenarioStart : DuelStore :=
  { duels := [{ id := 1, userId := 7, difficulty := "easy", userScore := 3,
                aiScore := 1, wrongAnswers := [], xpEarned := 10, completed := true }],
    store := { users := [{ id := 7, points := 0 }], badges := [], userBadges := [] } }

/-- Request body replayed against the already-completed duel. -/
def duelReplayBody : DuelCompleteBody :=
  { duelId := 1, userScore := 5, aiScore := 2, wrongAnswers := [], xpEarned := 10,
    won := false }

/-- State after the complete handler runs once on the already-completed
duel. -/
def duelAfterFirstReplay : DuelStore :=
  (duelComplete duelScenarioStart 7 duelReplayBody).2

/-- State after the complete handler runs a second time. -/
def duelAfterSecondReplay : DuelStore :=
  (duelComplete duelAfterFirstReplay 7 duelReplayBody).2

/-- Helper: one iteration of the badge loop never touches the users
table. -/
theorem awardStep_users (s0 : Store) (uid : Nat) (pts : Int) (held : List Nat)
    (acc : Store) (pb : Int × String) :
    (awardStep s0 uid pts held acc pb).users = acc.users := by
  unfold awardStep awardBadge
  split
  · split
    · split <;> rfl
    · rfl
  · rfl

/-- Helper: the badge loop never touches the users table. -/
theorem foldl_awardStep_users (s0 : Store) (uid : Nat) (pts : Int) (held : List Nat)
    (pbs : List (Int × String)) (acc : Store) :
    (pbs.foldl (awardStep s0 uid pts held) acc).users = acc.users := by
  induction pbs generalizing acc with
  | nil => rfl
  | cons pb pbs ih => rw [List.foldl_cons, ih, awardStep_users]

/-- Helper: checkAndAwardPointsBadges never touches the users table. -/
theorem checkAndAward_users (s : Store) (uid : Nat) :
    (checkAndAwardPointsBadges s uid).users = s.users := by
  unfold checkAndAwardPointsBadges
  cases getUser s uid with
  | none => rfl
  | some user => exact foldl_awardStep_users ..

/-- C4: if the streak record holds yesterday as its last completed
date, a daily-mix completion increments currentStreak by exactly one;
if the last completed date is neither today nor yesterday (a gap of
two or more days, or a first-ever completion), currentStreak resets to
1, not 0. -/
theorem dailyMix_streak_continuation (s : StreakRecord) (today score tq : Nat)
    (htoday : 0 < today) :
    (s.lastCompletedDate = some (today - 1) →
      ((dailyMixComplete (some s) today score tq).1).currentStreak = s.currentStreak + 1) ∧
    (s.lastCompletedDate ≠ some today → s.lastCompletedDate ≠ some (today - 1) →
      ((dailyMixComplete (some s) today score tq).1).currentStreak = 1) := by
  constructor
  · intro h
    have hne : today - 1 ≠ today := by omega
    simp [dailyMixComplete, h, hne]
  · intro h1 h2
    simp [dailyMixComplete, h1, h2]

/-- Witness for dailyMix_streak_continuation: a record last completed
on day 4 completed again on day 5 moves from streak 2 to streak 3. -/
theorem dailyMix_streak_continuation_witness :
    ((dailyMixComplete
        (some { currentStreak := 2, longestStreak := 2, lastCompletedDate := some 4,
                streakSaversUsed := 0, totalDaysCompleted := 2 }) 5 3 5).1).currentStreak
      = 2 + 1 :=
  (dailyMix_streak_continuation
      { currentStreak := 2, longestStreak := 2, lastCompletedDate := some 4,
        streakSaversUsed := 0, totalDaysCompleted := 2 } 5 3 5 (by decide)).1 (by decide)

/-- C5: a daily-mix completion on a day the record already marks as
completed leaves the streak record unchanged, awards no XP, and flags
the already-completed branch. -/
theorem dailyMix_sameDay_idempotent (s : StreakRecord) (today score tq : Nat)
    (h : s.lastCompletedDate = some today) :
    (dailyMixComplete (some s) today score tq).1 = s ∧
    (dailyMixComplete (some s) today score tq).2.awardedXP = none ∧
    (dailyMixComplete (some s) today score tq).2.alreadyCompleted = true := by
  simp [dailyMixComplete, h]

/-- Witness for dailyMix_sameDay_idempotent at a concrete record last
completed on day 7, completed again on day 7. -/
theorem dailyMix_sameDay_idempotent_witness :
    (dailyMixComplete
        (some { currentStreak := 3, longestStreak := 4, lastCompletedDate := some 7,
                streakSaversUsed := 1, totalDaysCompleted := 6 }) 7 4 5).1
      = { currentStreak := 3, longestStreak := 4, lastCompletedDate := some 7,
          streakSaversUsed := 1, totalDaysCompleted := 6 } :=
  (dailyMix_sameDay_idempotent
      { currentStreak := 3, longestStreak := 4, lastCompletedDate := some 7,
        streakSaversUsed := 1, totalDaysCompleted := 6 } 7 4 5 (by decide)).1

/-- C8: longestStreak is at least currentStreak on the freshly created
record and after each streak operation: daily-mix completion (with
lazy record creation) and streak save both preserve the invariant. -/
theorem streak_longest_ge_current :
    streakInv defaultStreak ∧
    (∀ (sOpt : Option StreakRecord) (today score tq : Nat),
      streakInv (sOpt.getD defaultStreak) →
      streakInv (dailyMixComplete sOpt today score tq).1) ∧
    (∀ (user : UserRow) (sOpt : Option StreakRecord) (today : Nat),
      (∀ s ∈ sOpt, streakInv s) →
      ∀ s2 ∈ (saveStreak user sOpt today).2.2, streakInv s2) := by
  refine ⟨by decide, ?_, ?_⟩
  · intro sOpt today score tq hinv
    unfold dailyMixComplete
    by_cases h : (sOpt.getD defaultStreak).lastCompletedDate = some today
    · simpa [h] using hinv
    · simp only [h, if_false]
      unfold streakInv
      simp only
      exact le_max_right _ _
  · intro user sOpt today hinv s2 hs2
    unfold saveStreak at hs2
    by_cases hp : user.points < xpCost
    · simp only [hp, if_true] at hs2
      exact hinv s2 hs2
    · simp only [hp, if_false] at hs2
      cases sOpt with
      | none => simp at hs2
      | some s =>
        simp only [Option.mem_def, Option.some.injEq] at hs2
        have := hinv s rfl
        subst hs2
        exact this

/-- Witness for streak_longest_ge_current: the invariant holds after a
completion on day 3 of a record last completed on day 2. -/
theorem streak_longest_ge_current_witness :
    streakInv (dailyMixComplete
      (some { currentStreak := 1, longestStreak := 1, lastCompletedDate := some 2,
              streakSaversUsed := 0, totalDaysCompleted := 1 }) 3 5 5).1 :=
  streak_longest_ge_current.2.1
    (some { currentStreak := 1, longestStreak := 1, lastCompletedDate := some 2,
            streakSaversUsed := 0, totalDaysCompleted := 1 }) 3 5 5 (by decide)

/-- C2 counterexample: a user who already completed today (the record
holds day 10 as lastCompletedDate on day 10) with currentStreak = 0
and 100 points nevertheless saves the streak successfully, getting the
lastCompletedDate rewritten to day 9 and 50 points deducted.  The
handler checks only the point balance and record existence, never the
not-completed-today, missed-exactly-yesterday or positive-streak
conditions the claim states. -/
theorem saveStreak_no_guards_counterexample :
    (saveStreak { id := 1, points := 100 }
        (some { currentStreak := 0, longestStreak := 5, lastCompletedDate := some 10,
                streakSaversUsed := 0, totalDaysCompleted := 3 }) 10).1
      = SaveStreakOutcome.success ∧
    (saveStreak { id := 1, points := 100 }
        (some { currentStreak := 0, longestStreak := 5, lastCompletedDate := some 10,
                streakSaversUsed := 0, totalDaysCompleted := 3 }) 10).2
      = ({ id := 1, points := 50 },
         some { currentStreak := 0, longestStreak := 5, lastCompletedDate := some 9,
                streakSaversUsed := 1, totalDaysCompleted := 3 }) := by
  decide

/-- C2 amended: saveStreak succeeds exactly when the session user has
at least the 50-point cost and a streak record exists, regardless of
whether today was already completed, which day was missed, or whether
currentStreak is positive; on success it rewrites lastCompletedDate to
yesterday, increments streakSaversUsed, and deducts 50 points; with a
balance below the cost it fails with the insufficient-funds response
and changes nothing. -/
theorem saveStreak_characterization (user : UserRow) (sOpt : Option StreakRecord)
    (today : Nat) :
    (user.points < xpCost → saveStreak user sOpt today = (.notEnoughXP, user, sOpt)) ∧
    (xpCost ≤ user.points → sOpt = none →
      saveStreak user sOpt today = (.noStreak, user, none)) ∧
    (xpCost ≤ user.points → ∀ s, sOpt = some s →
      saveStreak user sOpt today =
        (.success, { user with points := user.points - xpCost },
          some { s with lastCompletedDate := some (today - 1),
                        streakSaversUsed := s.streakSaversUsed + 1 })) := by
  refine ⟨?_, ?_, ?_⟩
  · intro hp
    simp [saveStreak, hp]
  · intro hp hnone
    subst hnone
    simp [saveStreak, not_lt.mpr hp]
  · intro hp s hsome
    subst hsome
    simp [saveStreak, not_lt.mpr hp]

/-- Witness for saveStreak_characterization: a user with 80 points and
a record last completed on day 5 saves the streak on day 7. -/
theorem saveStreak_characterization_witness :
    saveStreak { id := 2, points := 80 }
        (some { currentStreak := 4, longestStreak := 4, lastCompletedDate := some 5,
                streakSaversUsed := 0, totalDaysCompleted := 4 }) 7
      = (.success, { id := 2, points := 30 },
         some { currentStreak := 4, longestStreak := 4, lastCompletedDate := some 6,
                streakSaversUsed := 1, totalDaysCompleted := 4 }) :=
  (saveStreak_characterization { id := 2, points := 80 } _ 7).2.2 (by decide)
    { currentStreak := 4, longestStreak := 4, lastCompletedDate := some 5,
      streakSaversUsed := 0, totalDaysCompleted := 4 } rfl

/-- C9: when no daily-content row exists for the department and date
and the generation step fails (LLM error or unparseable output), the
handler surfaces the error and the state is exactly the initial one:
no term row and no daily-content row is persisted, and the ledger is
untouched, so the two creations are never split across this failure. -/
theorem dailyContent_failure_atomic (s : ContentStore) (userId : Nat)
    (department today : String) (e : GenerationError) (freshTermId : Nat)
    (hmiss : getDailyContent s department today = none) :
    dailyContentHandler s userId department today (.error e) freshTermId
      = (.error e, s) := by
  simp [dailyContentHandler, hmiss]

/-- Witness for dailyContent_failure_atomic: on an empty store a
failed generation leaves the store empty and returns the error. -/
theorem dailyContent_failure_atomic_witness :
    dailyContentHandler
        { terms := [], dailyContent := [], ledger := { users := [], learned := [] } }
        1 "Engineering" "2025-06-01" (.error .generatorFailed) 1
      = (.error .generatorFailed,
         { terms := [], dailyContent := [], ledger := { users := [], learned := [] } }) :=
  dailyContent_failure_atomic _ 1 "Engineering" "2025-06-01" .generatorFailed 1 rfl

/-- C10 counterexample: addPoints on a store holding no user with the
given id resolves normally with no user row (drizzle returning an
empty list) instead of failing with a NotFound condition; the store is
unchanged. -/
theorem addPoints_missingUser_counterexample :
    (addPoints { users := [], badges := [], userBadges := [] } 1 5).1
        ≠ Except.error StorageError.notFound ∧
    (addPoints { users := [], badges := [], userBadges := [] } 1 5).1
        = Except.ok none ∧
    (addPoints { users := [], badges := [], userBadges := [] } 1 5).2
        = { users := [], badges := [], userBadges := [] } := by
  refine ⟨?_, rfl, rfl⟩
  intro h
  simp [addPoints, checkAndAwardPointsBadges, getUser] at h

/-- C10 amended: when no user row with the given id exists, addPoints
makes no state change (no points row updated, no badge awarded) and
resolves normally returning no user, rather than failing with a
NotFound condition. -/
theorem addPoints_missingUser_noop (s : Store) (userId : Nat) (amount : Int)
    (h : getUser s userId = none) :
    addPoints s userId amount = (.ok none, s) := by
  have hall : ∀ u ∈ s.users, ¬(u.id = userId) := by
    intro u hu
    have := List.find?_eq_none.mp h u hu
    simpa using this
  have husers : s.users.map (fun u =>
      if u.id = userId then { u with points := u.points + amount } else u) = s.users := by
    rw [show s.users = s.users.map id from (List.map_id s.users).symm]
    rw [List.map_map]
    apply List.map_congr_left
    intro u hu
    simp [hall u hu]
  have hfilter : s.users.filter (fun u => u.id = userId) = [] := by
    rw [List.filter_eq_nil_iff]
    intro u hu
    simpa using hall u hu
  unfold addPoints
  simp only [husers, hfilter]
  have hs1 : ({ s with users := s.users } : Store) = s := rfl
  rw [hs1]
  unfold checkAndAwardPointsBadges
  rw [getUser] at h ⊢
  simp [h]

/-- Witness for addPoints_missingUser_noop: adding points for user 3
in a store holding only user 1 changes nothing. -/
theorem addPoints_missingUser_noop_witness :
    addPoints { users := [{ id := 1, points := 10 }], badges := [], userBadges := [] } 3 7
      = (.ok none,
         { users := [{ id := 1, points := 10 }], badges := [], userBadges := [] }) :=
  addPoints_missingUser_noop
    { users := [{ id := 1, points := 10 }], badges := [], userBadges := [] } 3 7 (by decide)

/-- C1, evaluated at the failing submission order: challenger score 8
and opponent score 5, but the opponent submits first.  Because
challengerScore is NOT NULL with default 0, the completion check fires
at the opponent submission: the battle completes immediately with
scores 0 versus 5, stores winnerId = opponent, and pays the opponent
the 50 XP; the later challenger submission only writes the score 8.
The final state has both scores submitted and status completed, yet
winnerId is the opponent, not the challenger as the claim states, and
completion did not happen at the second submission. -/
theorem battleSubmit_opponentFirst_wrongWinner :
    battleAfterOpponentSubmit.battles
      = [{ id := 1, challengerId := 1, opponentId := some 2,
           challengerScore := 0, opponentScore := some 5,
           challengerAnswers := [], opponentAnswers := some [],
           status := .completed, winnerId := some 2 }] ∧
    battleAfterOpponentSubmit.store.users
      = [{ id := 1, points := 0 }, { id := 2, points := 50 }] ∧
    battleAfterBothSubmit.battles
      = [{ id := 1, challengerId := 1, opponentId := some 2,
           challengerScore := 8, opponentScore := some 5,
           challengerAnswers := [], opponentAnswers := some [],
           status := .completed, winnerId := some 2 }] ∧
    battleAfterBothSubmit.store.users
      = [{ id := 1, points := 0 }, { id := 2, points := 50 }] := by
  decide

/-- C3 counterexample: replaying the complete handler against a duel
whose completed flag is already true rewrites the duel row (userScore
moves from 3 to 5) and pays the xpEarned again on every call: after
two replays the user holds 20 points from a single 10-XP duel. -/
theorem duelComplete_replay_counterexample :
    duelScenarioStart.duels.map (fun d => d.completed) = [true] ∧
    duelAfterFirstReplay.duels.map (fun d => d.userScore) = [5] ∧
    duelAfterFirstReplay.store.users = [{ id := 7, points := 10 }] ∧
    duelAfterSecondReplay.store.users = [{ id := 7, points := 20 }] := by
  decide

/-- C3 amended: the complete handler is unconditional: on every call
it overwrites the duel row matching the duelId with the submitted
scores, wrong answers and xpEarned, setting completed = true with no
check of the existing completed flag, and adds xpEarned to the session
user points; XP is therefore applied once per call, not at most once
per duel. -/
theorem duelComplete_unconditional (st : DuelStore) (uid : Nat) (body : DuelCompleteBody) :
    (duelComplete st uid body).2.duels = st.duels.map (fun d =>
      if d.id = body.duelId then
        { d with userScore := body.userScore, aiScore := body.aiScore,
                 wrongAnswers := body.wrongAnswers, xpEarned := body.xpEarned,
                 completed := true }
      else d) ∧
    (duelComplete st uid body).2.store.users = st.store.users.map (fun u =>
      if u.id = uid then { u with points := u.points + body.xpEarned } else u) := by
  constructor
  · rfl
  · show (addPoints st.store uid body.xpEarned).2.users = _
    unfold addPoints
    simp only
    rw [checkAndAward_users]

/-- C7: marking a term learned for a pair with no existing ledger row
inserts exactly one row; a second identical call returns the same
record and the same state unchanged; and the wordsLearned counter of
every matching user row becomes the old ledger row count plus one,
which is exactly the new ledger row count. -/
theorem markTermAsLearned_idempotent (s : LStore) (u t : Nat)
    (h0 : learnedCount s.learned u t = 0) :
    learnedCount (markTermAsLearned s u t).2.learned u t = 1 ∧
    markTermAsLearned (markTermAsLearned s u t).2 u t
      = ((markTermAsLearned s u t).1, (markTermAsLearned s u t).2) ∧
    (getUserLearnedTermIds (markTermAsLearned s u t).2 u).length
      = (getUserLearnedTermIds s u).length + 1 ∧
    (markTermAsLearned s u t).2.users
      = s.users.map (fun x => if x.id = u then
          { x with wordsLearned := (getUserLearnedTermIds s u).length + 1 } else x) := by
  have hfilter : s.learned.filter (fun r => r.userId = u ∧ r.termId = t) = [] := by
    unfold learnedCount at h0
    exact List.length_eq_zero.mp h0
  have hfilter2 : (s.learned ++ [({ userId := u, termId := t } : UserLearnedTerm)]).filter
      (fun r => r.userId = u ∧ r.termId = t) = [{ userId := u, termId := t }] := by
    rw [List.filter_append, hfilter]
    simp
  have hrow : markTermAsLearned s u t
      = ({ userId := u, termId := t },
         { users := s.users.map (fun x => if x.id = u then
             { x with wordsLearned := (getUserLearnedTermIds
                 { users := s.users,
                   learned := s.learned ++ [{ userId := u, termId := t }] } u).length }
             else x),
           learned := s.learned ++ [{ userId := u, termId := t }] }) := by
    unfold markTermAsLearned
    rw [hfilter]
    rfl
  have hcount : (getUserLearnedTermIds
      { users := s.users, learned := s.learned ++ [{ userId := u, termId := t }] } u).length
      = (getUserLearnedTermIds s u).length + 1 := by
    unfold getUserLearnedTermIds
    simp [List.filter_append]
  refine ⟨?_, ?_, ?_, ?_⟩
  · rw [hrow]
    unfold learnedCount
    rw [hfilter2]
    rfl
  · rw [hrow]
    unfold markTermAsLearned
    rw [hfilter2]
    rfl
  · rw [hrow]
    exact hcount
  · rw [hrow]
    simp only [hcount]

/-- Witness for markTermAsLearned_idempotent: user 1 with an empty
ledger marks term 42 learned twice; one row results and the counter
moves to 1. -/
theorem markTermAsLearned_idempotent_witness :
    learnedCount
      (markTermAsLearned { users := [{ id := 1, wordsLearned := 0 }], learned := [] } 1 42).2.learned
      1 42 = 1 :=
  (markTermAsLearned_idempotent
      { users := [{ id := 1, wordsLearned := 0 }], learned := [] } 1 42 (by decide)).1

/-- Helper: one iteration of the badge loop equals appending the award
it emits. -/
theorem awardStep_eq (s0 : Store) (uid : Nat) (pts : Int) (held : List Nat)
    (acc : Store) (pb : Int × String) :
    awardStep s0 uid pts held acc pb
      = { acc with userBadges := acc.userBadges ++ (awardOf s0 uid pts held pb).toList } := by
  unfold awardStep awardOf awardBadge
  by_cases h1 : pb.1 ≤ pts
  · simp only [h1, if_true]
    cases hfind : s0.badges.find? (fun b => b.name = pb.2) with
    | none => simp
    | some badge =>
      by_cases h2 : badge.id ∈ held
      · simp [h2]
      · simp [h2]
  · simp [h1]

/-- Helper: the badge loop equals appending the list of emitted
awards. -/
theorem foldl_awardStep_eq (s0 : Store) (uid : Nat) (pts : Int) (held : List Nat)
    (pbs : List (Int × String)) (acc : Store) :
    pbs.foldl (awardStep s0 uid pts held) acc
      = { acc with userBadges := acc.userBadges ++ pbs.filterMap (awardOf s0 uid pts held) } := by
  induction pbs generalizing acc with
  | nil => simp
  | cons pb pbs ih =>
    rw [List.foldl_cons, ih, awardStep_eq]
    cases h : awardOf s0 uid pts held pb <;> simp [List.filterMap_cons, h]

/-- Helper: the badge check never touches the badges catalog. -/
theorem checkAndAward_badges (s : Store) (uid : Nat) :
    (checkAndAwardPointsBadges s uid).badges = s.badges := by
  unfold checkAndAwardPointsBadges
  cases getUser s uid with
  | none => rfl
  | some user =>
    show (pointBadges.foldl
      (awardStep s uid user.points ((getUserBadges s uid).map (fun ub => ub.badgeId))) s).badges = s.badges
    rw [foldl_awardStep_eq]

/-- Helper: pair counts add under list append. -/
theorem ubCount_append (l1 l2 : List UserBadgeRow) (u b : Nat) :
    ubCount (l1 ++ l2) u b = ubCount l1 u b + ubCount l2 u b := by
  unfold ubCount
  rw [List.filter_append, List.length_append]

/-- Helper: a vanishing pair count means no row matches the pair. -/
theorem ubCount_eq_zero (l : List UserBadgeRow) (u b : Nat) :
    ubCount l u b = 0 ↔ ∀ r ∈ l, ¬(r.userId = u ∧ r.badgeId = b) := by
  unfold ubCount
  rw [List.length_eq_zero, List.filter_eq_nil_iff]
  simp

/-- Helper: membership in the held badge-id list of a user is
existence of a matching user_badges row. -/
theorem mem_heldIds_iff (s : Store) (uid b : Nat) :
    b ∈ (getUserBadges s uid).map (fun ub => ub.badgeId)
      ↔ ∃ r ∈ s.userBadges, r.userId = uid ∧ r.badgeId = b := by
  unfold getUserBadges
  simp only [List.mem_map, List.mem_filter]
  constructor
  · rintro ⟨r, ⟨hr, hru⟩, hrb⟩
    exact ⟨r, hr, by simpa using hru, hrb⟩
  · rintro ⟨r, hr, hru, hrb⟩
    exact ⟨r, ⟨hr, by simpa using hru⟩, hrb⟩

/-- Helper: an emitted award is for the given user, carries a badge id
not already held, and names a catalog badge of the threshold entry. -/
theorem awardOf_spec (s0 : Store) (uid : Nat) (pts : Int) (held : List Nat)
    (pb : Int × String) (r : UserBadgeRow) (h : awardOf s0 uid pts held pb = some r) :
    r.userId = uid ∧ ¬(r.badgeId ∈ held) ∧
      ∃ badge, badge ∈ s0.badges ∧ badge.name = pb.2 ∧ r.badgeId = badge.id := by
  unfold awardOf at h
  by_cases h1 : pb.1 ≤ pts
  · rw [if_pos h1] at h
    cases hfind : s0.badges.find? (fun b => b.name = pb.2) with
    | none => rw [hfind] at h; cases h
    | some badge =>
      rw [hfind] at h
      dsimp only at h
      by_cases h2 : held.contains badge.id = true
      · rw [if_pos h2] at h; cases h
      · rw [if_neg h2] at h
        injection h with h3
        subst h3
        refine ⟨rfl, ?_, badge, List.mem_of_find?_eq_some hfind, ?_, rfl⟩
        · intro hm
          exact h2 (List.elem_iff.mpr hm)
        · have := List.find?_some hfind
          simpa using this
  · rw [if_neg h1] at h; cases h

/-- Helper: every row of the emitted award list is for the given user,
not already held, and tied to a catalog badge named by some processed
threshold entry. -/
theorem mem_filterMap_awardOf (s0 : Store) (uid : Nat) (pts : Int) (held : List Nat)
    (pbs : List (Int × String)) (r : UserBadgeRow)
    (h : r ∈ pbs.filterMap (awardOf s0 uid pts held)) :
    r.userId = uid ∧ ¬(r.badgeId ∈ held) ∧
      ∃ badge, badge ∈ s0.badges ∧ r.badgeId = badge.id ∧
        ∃ pb ∈ pbs, badge.name = pb.2 := by
  rcases List.mem_filterMap.mp h with ⟨pb, hpb, hsome⟩
  obtain ⟨h1, h2, badge, hb1, hb2, hb3⟩ := awardOf_spec s0 uid pts held pb r hsome
  exact ⟨h1, h2, badge, hb1, hb3, pb, hpb, hb2⟩

/-- Helper: with pairwise distinct threshold names and a duplicate-free
catalog, the emitted award list holds at most one row per pair. -/
theorem ubCount_filterMap_awardOf (s0 : Store) (uid : Nat) (pts : Int) (held : List Nat)
    (pbs : List (Int × String)) (hcat : distinctBadgeIds s0.badges) (u b : Nat) :
    (pbs.map Prod.snd).Nodup →
      ubCount (pbs.filterMap (awardOf s0 uid pts held)) u b ≤ 1 := by
  unfold distinctBadgeIds at hcat
  induction pbs with
  | nil =>
    intro _
    simp [ubCount]
  | cons pb pbs ih =>
    intro hnames
    rw [List.map_cons, List.nodup_cons] at hnames
    obtain ⟨hhead, htail⟩ := hnames
    cases h : awardOf s0 uid pts held pb with
    | none =>
      rw [List.filterMap_cons_none h]
      exact ih htail
    | some r =>
      rw [List.filterMap_cons_some h]
      by_cases hr : r.userId = u ∧ r.badgeId = b
      · have hzero : ubCount (pbs.filterMap (awardOf s0 uid pts held)) u b = 0 := by
          rw [ubCount_eq_zero]
          rintro r2 hr2 ⟨hr2u, hr2b⟩
          obtain ⟨-, -, badge2, hb2mem, hb2id, pb2, hpb2, hb2name⟩ :=
            mem_filterMap_awardOf s0 uid pts held pbs r2 hr2
          obtain ⟨-, -, badge1, hb1mem, hb1name, hb1id⟩ :=
            awardOf_spec s0 uid pts held pb r h
          have hid : badge1.id = badge2.id := by
            rw [← hb1id, ← hb2id, hr.2, hr2b]
          have hbeq : badge1 = badge2 :=
            List.inj_on_of_nodup_map hcat hb1mem hb2mem hid
          apply hhead
          rw [List.mem_map]
          refine ⟨pb2, hpb2, ?_⟩
          rw [← hb2name, ← hbeq, hb1name]
        unfold ubCount at hzero ⊢
        rw [List.filter_cons]
        have hdec : decide (r.userId = u ∧ r.badgeId = b) = true := by
          simp [hr.1, hr.2]
        rw [hdec]
        simp only [if_true, List.length_cons]
        omega
      · unfold ubCount at ih ⊢
        rw [List.filter_cons]
        have hdec : decide (r.userId = u ∧ r.badgeId = b) = false := by
          simpa using hr
        rw [hdec]
        simp only [Bool.false_eq_true, if_false]
        exact ih htail

/-- Helper: the threshold names of the points-badge table are pairwise
distinct. -/
theorem pointBadges_names_nodup : (pointBadges.map Prod.snd).Nodup := by
  decide

/-- Helper: shape of the user_badges table when the badge check finds
no user. -/
theorem checkAndAward_userBadges_none (s : Store) (uid : Nat)
    (h : getUser s uid = none) :
    (checkAndAwardPointsBadges s uid).userBadges = s.userBadges := by
  unfold checkAndAwardPointsBadges
  rw [h]

/-- Helper: shape of the user_badges table when the badge check finds
the user. -/
theorem checkAndAward_userBadges_some (s : Store) (uid : Nat) (user : UserRow)
    (h : getUser s uid = some user) :
    (checkAndAwardPointsBadges s uid).userBadges
      = s.userBadges ++ pointBadges.filterMap
          (awardOf s uid user.points ((getUserBadges s uid).map (fun ub => ub.badgeId))) := by
  unfold checkAndAwardPointsBadges
  rw [h]
  show (pointBadges.foldl
    (awardStep s uid user.points ((getUserBadges s uid).map (fun ub => ub.badgeId))) s).userBadges = _
  rw [foldl_awardStep_eq]

/-- Helper: the badge check preserves pair uniqueness of the
user_badges table. -/
theorem checkAndAward_preserves_unique (s : Store) (uid : Nat)
    (hub : uniqueUserBadges s.userBadges) (hcat : distinctBadgeIds s.badges) :
    uniqueUserBadges (checkAndAwardPointsBadges s uid).userBadges := by
  intro u b
  cases hu : getUser s uid with
  | none =>
    rw [checkAndAward_userBadges_none s uid hu]
    exact hub u b
  | some user =>
    rw [checkAndAward_userBadges_some s uid user hu, ubCount_append]
    have hub0 := hub u b
    by_cases hcase : u = uid
    · subst hcase
      by_cases hmem : b ∈ (getUserBadges s u).map (fun ub => ub.badgeId)
      · have hA : ubCount (pointBadges.filterMap
            (awardOf s u user.points ((getUserBadges s u).map (fun ub => ub.badgeId)))) u b = 0 := by
          rw [ubCount_eq_zero]
          rintro r hr ⟨hru, hrb⟩
          obtain ⟨-, hnotheld, -⟩ :=
            mem_filterMap_awardOf s u user.points _ pointBadges r hr
          exact hnotheld (hrb ▸ hmem)
        omega
      · have h0 : ubCount s.userBadges u b = 0 := by
          rw [ubCount_eq_zero]
          rintro r hr ⟨hru, hrb⟩
          exact hmem ((mem_heldIds_iff s u b).mpr ⟨r, hr, hru, hrb⟩)
        have hA := ubCount_filterMap_awardOf s u user.points
          ((getUserBadges s u).map (fun ub => ub.badgeId)) pointBadges hcat u b
          pointBadges_names_nodup
        omega
    · have hA : ubCount (pointBadges.filterMap
          (awardOf s uid user.points ((getUserBadges s uid).map (fun ub => ub.badgeId)))) u b = 0 := by
        rw [ubCount_eq_zero]
        rintro r hr ⟨hru, -⟩
        obtain ⟨hruid, -, -⟩ :=
          mem_filterMap_awardOf s uid user.points _ pointBadges r hr
        exact hcase (hru ▸ hruid ▸ rfl)
      omega

/-- Helper: addPoints preserves the badges catalog and the pair
uniqueness of the user_badges table. -/
theorem addPoints_preserves (s : Store) (uid : Nat) (amt : Int) :
    (addPoints s uid amt).2.badges = s.badges ∧
    (uniqueUserBadges s.userBadges → distinctBadgeIds s.badges →
      uniqueUserBadges (addPoints s uid amt).2.userBadges) := by
  have h2 : (addPoints s uid amt).2 = checkAndAwardPointsBadges
      { s with users := s.users.map (fun u =>
          if u.id = uid then { u with points := u.points + amt } else u) } uid := rfl
  constructor
  · rw [h2, checkAndAward_badges]
  · intro hub hcat
    rw [h2]
    exact checkAndAward_preserves_unique _ uid hub hcat

/-- C6: starting from a user_badges table with at most one row per
(userId, badgeId) pair and a badges catalog with distinct primary-key
ids, any sequence of addPoints calls, of any amounts and however long,
leaves at most one user_badges row per pair: the existing-badge check
makes the badge evaluation idempotent and an already-held badge is
never double-awarded. -/
theorem userBadges_unique_after_addPoints (s : Store) (calls : List (Nat × Int))
    (hub : uniqueUserBadges s.userBadges) (hcat : distinctBadgeIds s.badges) :
    uniqueUserBadges (addPointsMany s calls).userBadges := by
  induction calls generalizing s with
  | nil => exact hub
  | cons c cs ih =>
    have hstep := addPoints_preserves s c.1 c.2
    have hnext : addPointsMany s (c :: cs)
        = addPointsMany (addPoints s c.1 c.2).2 cs := rfl
    rw [hnext]
    exact ih _ (hstep.2 hub hcat) (hstep.1 ▸ hcat)

/-- Witness for userBadges_unique_after_addPoints: the spec scenario
of a user at 950 points receiving 60 points twice against the seeded
shield catalog keeps user_badges duplicate-free. -/
theorem userBadges_unique_after_addPoints_witness :
    uniqueUserBadges (addPointsMany
      { users := [{ id := 1, points := 950 }],
        badges := [{ id := 1, name := "Shield" }, { id := 2, name := "Medium Shield" },
                   { id := 3, name := "Bronze Shield" }],
        userBadges := [] } [(1, 60), (1, 60)]).userBadges :=
  userBadges_unique_after_addPoints _ _ (fun u b => by simp [ubCount])
    (by unfold distinctBadgeIds; decide)
